import Mathlib

/-! webigram-myip: the public-IP report of `main.go`.

A shallow embedding of `src/main.go`.  The program is a straight-line sequence of
HTTP lookups followed by a printed report.  Its only effects are calls to
`http.Get` and writes to standard output, so every function below threads a
`Trace` that records both, in order.

The network and the standard library's JSON decoder are not part of the
repository.  They are taken as a parameter, `World`:

* `httpGet url` is the result of `http.Get(url)`; a response carries the result
  of `io.ReadAll(resp.Body)`.  The HTTP status code is never read by the program.
* `unmarshalIpAPI body target` and `unmarshalIpMyP body target` are
  `json.Unmarshal(body, &target)` at the two struct types the program decodes
  into.  They return the target as the call leaves it (Go may have written some
  fields before it reports a type error) together with the returned error.

A run requests pairwise different URLs (the enrichment URL extends the primary
one by a non-empty IP), so making `httpGet` a function of the URL loses no run.

Go strings are modelled by `String`, Go `error` values by their `Error()` text.
One element of `Trace.out` is the text written by one `fmt.Println` or
`fmt.Printf` call, without its final newline: a printed line.
-/

namespace MyIP

/-- The `IpAPI` struct of `main.go` lines 12-17; the zero value has all fields empty. -/
structure IpAPI where
  Query : String := ""
  ISP : String := ""
  Country : String := ""
  Status : String := ""
deriving DecidableEq, Repr

/-- The `IpMyP` struct of `main.go` lines 20-23. -/
structure IpMyP where
  Query : String := ""
  Ip : String := ""
deriving DecidableEq, Repr

/-- What the program sees of an `*http.Response`: the result of
`io.ReadAll(resp.Body)`, either the whole body or a read error. -/
structure Response where
  readAll : Except String String

/-- The environment of one run: the network and `encoding/json`. -/
structure World where
  httpGet : String → Except String Response
  unmarshalIpAPI : String → IpAPI → IpAPI × Option String
  unmarshalIpMyP : String → IpMyP → IpMyP × Option String

/-- The observable effects of a run so far: the lines written to standard output
and the URLs passed to `http.Get`, both in order. -/
structure Trace where
  out : List String := []
  gets : List String := []
deriving DecidableEq, Repr

/-- One `fmt.Println` / `fmt.Printf` call writing the line `s`. -/
def Trace.println (t : Trace) (s : String) : Trace :=
  { t with out := t.out ++ [s] }

/-- One `http.Get(url)` call. -/
def Trace.get (t : Trace) (url : String) : Trace :=
  { t with gets := t.gets ++ [url] }

/-- Go's `unicode.IsSpace`: the Latin-1 spaces and the code points with the
Unicode White_Space property. -/
def isSpace (c : Char) : Bool :=
  let n := c.toNat
  n == 0x09 || n == 0x0A || n == 0x0B || n == 0x0C || n == 0x0D || n == 0x20 ||
  n == 0x85 || n == 0xA0 || n == 0x1680 || (0x2000 ≤ n && n ≤ 0x200A) ||
  n == 0x2028 || n == 0x2029 || n == 0x202F || n == 0x205F || n == 0x3000

/-- Go's `strings.TrimSpace`: the string without its leading and trailing white space. -/
def TrimSpace (s : String) : String :=
  ⟨((s.data.dropWhile isSpace).reverse.dropWhile isSpace).reverse⟩

/-- The closing separator of the report (`main.go` line 123): 48 equals signs. -/
def closingSeparator : String := ⟨List.replicate 48 '='⟩

/-- The primary endpoint requested at `main.go` line 58. -/
def primaryURL : String := "http://ip-api.com/json/"

/-- The secondary endpoint requested at `main.go` line 65. -/
def secondaryURL : String := "https://api.ipmyp.ir/"

/-- `fetchJSON` (`main.go` lines 27-40).  Both call sites pass an `*IpAPI`
target.  Returns the target as left by the call and the returned error. -/
def fetchJSON (w : World) (url : String) (target : IpAPI) (t : Trace) :
    (IpAPI × Option String) × Trace :=
  let t := t.get url
  match w.httpGet url with
  | .error err => ((target, some err), t)
  | .ok resp =>
    match resp.readAll with
    | .error err => ((target, some err), t)
    | .ok body => (w.unmarshalIpAPI body target, t)

/-- `fetchIPAPI` (`main.go` lines 43-53). -/
def fetchIPAPI (w : World) (ip : String) (t : Trace) : Except String IpAPI × Trace :=
  let url := "http://ip-api.com/json/" ++ ip
  match fetchJSON w url {} t with
  | ((_, some err), t) => (.error err, t)
  | ((info, none), t) =>
    if info.Status ≠ "success" then (.error "ip-api lookup failed", t)
    else (.ok info, t)

/-- Step 2 of `main` (lines 63-85): the secondary lookup, JSON first and plain
text as the fallback.  Returns the `ipmyp` variable. -/
def secondaryLookup (w : World) (t : Trace) : IpMyP × Trace :=
  let ipmyp : IpMyP := {}
  let t := t.get "https://api.ipmyp.ir/"
  match w.httpGet "https://api.ipmyp.ir/" with
  | .error err => (ipmyp, t.println ("ipmyp lookup failed: " ++ err))
  | .ok resp =>
    match resp.readAll with
    | .error err => (ipmyp, t.println ("ipmyp read failed: " ++ err))
    | .ok body =>
      match w.unmarshalIpMyP body ipmyp with
      | (ipmyp, some _) =>
        let ip := TrimSpace body
        if ip = "" then (ipmyp, t.println "ipmyp: empty response")
        else ({ ipmyp with Query := ip }, t)
      | (ipmyp, none) => (ipmyp, t)

/-- Step 3 of `main` (lines 87-99): the enrichment lookup.  Returns the
`ipmypInfo` pointer, `none` for nil. -/
def enrichLookup (w : World) (ipmyp : IpMyP) (t : Trace) : Option IpAPI × Trace :=
  let ip := ipmyp.Query
  let ip := if ip = "" then ipmyp.Ip else ip
  if ip ≠ "" then
    match fetchIPAPI w ip t with
    | (.error err, t) => (none, t.println ("ip-api lookup for ipmyp failed: " ++ err))
    | (.ok info, t) => (some info, t)
  else (none, t)

/-- Step 4 of `main` (lines 101-123): the report. -/
def printReport (primary : IpAPI) (ipmyp : IpMyP) (ipmypInfo : Option IpAPI)
    (t : Trace) : Trace :=
  let t := t.println "================ PUBLIC IP INFO ================"
  let t := t.println ("IP (ip-api)   : " ++ primary.Query)
  let t := t.println ("ISP           : " ++ primary.ISP)
  let t := t.println ("Country       : " ++ primary.Country)
  let ipDisplay := ipmyp.Query
  let ipDisplay := if ipDisplay = "" then ipmyp.Ip else ipDisplay
  let t := if ipDisplay ≠ "" then t.println ("IP (ipmyp)    : " ++ ipDisplay) else t
  let t :=
    match ipmypInfo with
    | some info =>
      let t := t.println "--------------- ipmyp enriched ----------------"
      let t := t.println ("IP            : " ++ info.Query)
      let t := t.println ("ISP           : " ++ info.ISP)
      t.println ("Country       : " ++ info.Country)
    | none => t
  t.println closingSeparator

/-- `main` (`main.go` lines 55-124): the trace of a whole run. -/
def main (w : World) : Trace :=
  match fetchJSON w "http://ip-api.com/json/" {} {} with
  | ((_, some _), t) => t.println "ip-api unreachable"
  | ((primary, none), t) =>
    match secondaryLookup w t with
    | (ipmyp, t) =>
      match enrichLookup w ipmyp t with
      | (ipmypInfo, t) => printReport primary ipmyp ipmypInfo t

/-- A toy `json.Unmarshal` into `IpAPI` for the example worlds: it knows the two
bodies of the end-to-end scenario and rejects everything else untouched. -/
def demoUnmarshalIpAPI (body : String) (target : IpAPI) : IpAPI × Option String :=
  if body = "\x7b\"query\":\"8.8.8.8\",\"isp\":\"Google\",\"country\":\"USA\",\"status\":\"success\"\x7d" then
    ({ Query := "8.8.8.8", ISP := "Google", Country := "USA", Status := "success" }, none)
  else if body = "\x7b\"query\":\"9.9.9.9\",\"isp\":\"Quad9\",\"country\":\"USA\",\"status\":\"success\"\x7d" then
    ({ Query := "9.9.9.9", ISP := "Quad9", Country := "USA", Status := "success" }, none)
  else if body = "\x7b\"query\":\"1.2.3.4\",\"status\":\"fail\"\x7d" then
    ({ target with Query := "1.2.3.4", Status := "fail" }, none)
  else (target, some "invalid character")

/-- A toy `json.Unmarshal` into `IpMyP` for the example worlds. -/
def demoUnmarshalIpMyP (body : String) (target : IpMyP) : IpMyP × Option String :=
  if body = "\x7b\"ip\": \"1.2.3.4\"\x7d" then ({ target with Ip := "1.2.3.4" }, none)
  else (target, some "invalid character")

/-- An example world: `pages` lists, per URL, what reading the response body
gives; any other URL cannot be reached.  Decoding is the toy decoders above. -/
def demoWorld (pages : List (String × Except String String)) : World where
  httpGet url :=
    match pages.lookup url with
    | some r => .ok ⟨r⟩
    | none => .error "no such host"
  unmarshalIpAPI := demoUnmarshalIpAPI
  unmarshalIpMyP := demoUnmarshalIpMyP

/-- The JSON body the primary service returns in the end-to-end scenario. -/
def googleBody : String :=
  "\x7b\"query\":\"8.8.8.8\",\"isp\":\"Google\",\"country\":\"USA\",\"status\":\"success\"\x7d"

/-- The JSON body the enrichment lookup returns in the end-to-end scenario. -/
def quad9Body : String :=
  "\x7b\"query\":\"9.9.9.9\",\"isp\":\"Quad9\",\"country\":\"USA\",\"status\":\"success\"\x7d"

/-- The world of the end-to-end scenario of the specification. -/
def scenarioWorld : World :=
  demoWorld [("http://ip-api.com/json/", .ok googleBody),
    ("https://api.ipmyp.ir/", .ok " 9.9.9.9 "),
    ("http://ip-api.com/json/9.9.9.9", .ok quad9Body)]

/-- The secondary service answers with the alternate field only, and the
enrichment lookup for that address reports a failure status. -/
def altFieldWorld : World :=
  demoWorld [("http://ip-api.com/json/", .ok googleBody),
    ("https://api.ipmyp.ir/", .ok "\x7b\"ip\": \"1.2.3.4\"\x7d"),
    ("http://ip-api.com/json/1.2.3.4", .ok "\x7b\"query\":\"1.2.3.4\",\"status\":\"fail\"\x7d")]

/-- No host can be reached. -/
def offlineWorld : World := demoWorld []

/-- The primary service answers, but with a body that is not JSON. -/
def garbledPrimaryWorld : World :=
  demoWorld [("http://ip-api.com/json/", .ok "<html>"),
    ("https://api.ipmyp.ir/", .ok "9.9.9.9"),
    ("http://ip-api.com/json/9.9.9.9", .ok quad9Body)]

/-- The secondary service answers with white space only. -/
def blankSecondaryWorld : World :=
  demoWorld [("http://ip-api.com/json/", .ok googleBody),
    ("https://api.ipmyp.ir/", .ok " \n")]

/-- The secondary service cannot be reached. -/
def secondaryDownWorld : World :=
  demoWorld [("http://ip-api.com/json/", .ok googleBody)]

/-- The secondary service answers, but reading its body fails. -/
def secondaryReadFailWorld : World :=
  demoWorld [("http://ip-api.com/json/", .ok googleBody),
    ("https://api.ipmyp.ir/", .error "unexpected EOF")]

/-- The primary service answers with a record whose status is not "success". -/
def failStatusWorld : World :=
  demoWorld [("http://ip-api.com/json/", .ok "\x7b\"query\":\"1.2.3.4\",\"status\":\"fail\"\x7d"),
    ("https://api.ipmyp.ir/", .ok "9.9.9.9"),
    ("http://ip-api.com/json/9.9.9.9", .ok quad9Body)]

/-- The part of the contract of `json.Unmarshal` that the empty-body path relies
on: input holding no JSON value at all (empty, or white space only) fails the
syntax check that runs before any field is written, so an error is returned and
the target is left as it was. -/
def RejectsBlank (w : World) : Prop :=
  ∀ (body : String) (target : IpMyP), TrimSpace body = "" →
    ∃ e, w.unmarshalIpMyP body target = (target, some e)

/-! ## Facts about the library model -/

theorem closingSeparator_length : closingSeparator.length = 48 := by decide

theorem dropWhile_pad (p : Char → Bool) (pre core : List Char)
    (hpre : ∀ c ∈ pre, p c = true) (hcore : ∀ c, core.head? = some c → p c = false) :
    (pre ++ core).dropWhile p = core := by
  induction pre with
  | nil =>
    cases core with
    | nil => rfl
    | cons a l => simp [List.dropWhile, hcore a (by simp)]
  | cons a l ih =>
    have ha : p a = true := hpre a (by simp)
    have hl : ∀ c ∈ l, p c = true := fun c hc => hpre c (by simp [hc])
    simp [List.dropWhile, ha, ih hl]

theorem trimSpace_pad (pre core post : List Char)
    (hpre : ∀ c ∈ pre, isSpace c = true) (hpost : ∀ c ∈ post, isSpace c = true)
    (hhead : ∀ c, core.head? = some c → isSpace c = false)
    (hlast : ∀ c, core.getLast? = some c → isSpace c = false) :
    TrimSpace ⟨pre ++ core ++ post⟩ = ⟨core⟩ := by
  cases core with
  | nil =>
    have h0 : (pre ++ [] ++ post).dropWhile isSpace = [] := by
      have h := dropWhile_pad isSpace (pre ++ post) [] (by
        intro c hc
        rcases List.mem_append.1 hc with h | h
        · exact hpre c h
        · exact hpost c h) (by simp)
      simpa using h
    simp only [List.append_nil] at h0
    simp only [TrimSpace, List.append_nil, h0]
    rfl
  | cons a l =>
    have h1 : (pre ++ (a :: l) ++ post).dropWhile isSpace = (a :: l) ++ post := by
      rw [List.append_assoc]
      exact dropWhile_pad isSpace pre (a :: l ++ post) hpre (by
        intro c hc
        exact hhead c (by simpa using hc))
    have h2 : ((a :: l) ++ post).reverse.dropWhile isSpace = (a :: l).reverse := by
      rw [List.reverse_append]
      exact dropWhile_pad isSpace post.reverse (a :: l).reverse
        (fun c hc => hpost c (List.mem_reverse.1 hc))
        (fun c hc => hlast c (by rw [List.head?_reverse] at hc; exact hc))
    simp only [TrimSpace, h1, h2, List.reverse_reverse]

/-! ## The steps of `main`, one lemma each -/

theorem fetchJSON_trace (w : World) (url : String) (target : IpAPI) (t : Trace) :
    (fetchJSON w url target t).2 = t.get url := by
  unfold fetchJSON
  cases w.httpGet url with
  | error e => rfl
  | ok r =>
    obtain ⟨ra⟩ := r
    cases ra with
    | error e => rfl
    | ok b => rfl

theorem fetchJSON_body (w : World) (url body : String) (target : IpAPI) (t : Trace)
    (h : w.httpGet url = .ok ⟨.ok body⟩) :
    fetchJSON w url target t = (w.unmarshalIpAPI body target, t.get url) := by
  simp [fetchJSON, h]

theorem fetchJSON_getErr (w : World) (url e : String) (target : IpAPI) (t : Trace)
    (h : w.httpGet url = .error e) :
    fetchJSON w url target t = ((target, some e), t.get url) := by
  simp [fetchJSON, h]

theorem fetchJSON_readErr (w : World) (url e : String) (target : IpAPI) (t : Trace)
    (h : w.httpGet url = .ok ⟨.error e⟩) :
    fetchJSON w url target t = ((target, some e), t.get url) := by
  simp [fetchJSON, h]

theorem main_abort (w : World) (p : IpAPI) (e : String)
    (h : (fetchJSON w "http://ip-api.com/json/" {} {}).1 = (p, some e)) :
    main w = ⟨["ip-api unreachable"], ["http://ip-api.com/json/"]⟩ := by
  have ht := fetchJSON_trace w "http://ip-api.com/json/" {} {}
  unfold main
  rcases hf : fetchJSON w "http://ip-api.com/json/" {} {} with ⟨⟨q, err⟩, t⟩
  rw [hf] at h ht
  simp only [Prod.mk.injEq] at h
  obtain ⟨-, rfl⟩ := h
  simp only at ht
  subst ht
  rfl

theorem main_continue (w : World) (p : IpAPI)
    (h : (fetchJSON w "http://ip-api.com/json/" {} {}).1 = (p, none)) :
    main w =
      printReport p (secondaryLookup w ⟨[], ["http://ip-api.com/json/"]⟩).1
        (enrichLookup w (secondaryLookup w ⟨[], ["http://ip-api.com/json/"]⟩).1
          (secondaryLookup w ⟨[], ["http://ip-api.com/json/"]⟩).2).1
        (enrichLookup w (secondaryLookup w ⟨[], ["http://ip-api.com/json/"]⟩).1
          (secondaryLookup w ⟨[], ["http://ip-api.com/json/"]⟩).2).2 := by
  have ht := fetchJSON_trace w "http://ip-api.com/json/" {} {}
  unfold main
  rcases hf : fetchJSON w "http://ip-api.com/json/" {} {} with ⟨⟨q, err⟩, t⟩
  rw [hf] at h ht
  simp only [Prod.mk.injEq] at h
  obtain ⟨rfl, rfl⟩ := h
  simp only at ht
  subst ht
  rfl

theorem printReport_out (p : IpAPI) (m : IpMyP) (info : Option IpAPI) (t : Trace) :
    (printReport p m info t).out =
      t.out ++ ["================ PUBLIC IP INFO ================",
        "IP (ip-api)   : " ++ p.Query, "ISP           : " ++ p.ISP,
        "Country       : " ++ p.Country]
      ++ (if (if m.Query = "" then m.Ip else m.Query) = "" then []
          else ["IP (ipmyp)    : " ++ (if m.Query = "" then m.Ip else m.Query)])
      ++ (match info with
          | some i => ["--------------- ipmyp enriched ----------------",
              "IP            : " ++ i.Query, "ISP           : " ++ i.ISP,
              "Country       : " ++ i.Country]
          | none => [])
      ++ [closingSeparator] := by
  unfold printReport
  cases info <;> by_cases h : (if m.Query = "" then m.Ip else m.Query) = "" <;>
    simp [Trace.println, h]

theorem printReport_gets (p : IpAPI) (m : IpMyP) (info : Option IpAPI) (t : Trace) :
    (printReport p m info t).gets = t.gets := by
  unfold printReport
  cases info <;> by_cases h : (if m.Query = "" then m.Ip else m.Query) = "" <;>
    simp [Trace.println, h]

theorem fetchIPAPI_trace (w : World) (ip : String) (t : Trace) :
    (fetchIPAPI w ip t).2 = t.get ("http://ip-api.com/json/" ++ ip) := by
  have ht := fetchJSON_trace w ("http://ip-api.com/json/" ++ ip) {} t
  rcases hf : fetchJSON w ("http://ip-api.com/json/" ++ ip) {} t with ⟨⟨q, err⟩, t2⟩
  rw [hf] at ht
  simp only at ht
  subst ht
  simp only [fetchIPAPI, hf]
  cases err with
  | some e => rfl
  | none =>
    by_cases hs : q.Status = "success" <;> simp [hs]

theorem enrichLookup_skip (w : World) (m : IpMyP) (t : Trace)
    (h : (if m.Query = "" then m.Ip else m.Query) = "") :
    enrichLookup w m t = (none, t) := by
  simp [enrichLookup, h]

theorem enrichLookup_error (w : World) (m : IpMyP) (t : Trace) (e : String)
    (h : (if m.Query = "" then m.Ip else m.Query) ≠ "")
    (hf : (fetchIPAPI w (if m.Query = "" then m.Ip else m.Query) t).1 = .error e) :
    enrichLookup w m t =
      (none, ⟨t.out ++ ["ip-api lookup for ipmyp failed: " ++ e],
        t.gets ++ ["http://ip-api.com/json/" ++ (if m.Query = "" then m.Ip else m.Query)]⟩) := by
  have ht := fetchIPAPI_trace w (if m.Query = "" then m.Ip else m.Query) t
  unfold enrichLookup
  rcases hr : fetchIPAPI w (if m.Query = "" then m.Ip else m.Query) t with ⟨r, t2⟩
  rw [hr] at hf ht
  simp only at hf ht
  subst hf ht
  simp [h, hr, Trace.println, Trace.get]

theorem enrichLookup_ok (w : World) (m : IpMyP) (t : Trace) (info : IpAPI)
    (h : (if m.Query = "" then m.Ip else m.Query) ≠ "")
    (hf : (fetchIPAPI w (if m.Query = "" then m.Ip else m.Query) t).1 = .ok info) :
    enrichLookup w m t =
      (some info, ⟨t.out,
        t.gets ++ ["http://ip-api.com/json/" ++ (if m.Query = "" then m.Ip else m.Query)]⟩) := by
  have ht := fetchIPAPI_trace w (if m.Query = "" then m.Ip else m.Query) t
  unfold enrichLookup
  rcases hr : fetchIPAPI w (if m.Query = "" then m.Ip else m.Query) t with ⟨r, t2⟩
  rw [hr] at hf ht
  simp only at hf ht
  subst hf ht
  simp [h, hr, Trace.get]

theorem secondaryLookup_getErr (w : World) (t : Trace) (e : String)
    (h : w.httpGet "https://api.ipmyp.ir/" = .error e) :
    secondaryLookup w t =
      ({}, ⟨t.out ++ ["ipmyp lookup failed: " ++ e], t.gets ++ ["https://api.ipmyp.ir/"]⟩) := by
  simp [secondaryLookup, h, Trace.println, Trace.get]

theorem secondaryLookup_readErr (w : World) (t : Trace) (e : String)
    (h : w.httpGet "https://api.ipmyp.ir/" = .ok ⟨.error e⟩) :
    secondaryLookup w t =
      ({}, ⟨t.out ++ ["ipmyp read failed: " ++ e], t.gets ++ ["https://api.ipmyp.ir/"]⟩) := by
  simp [secondaryLookup, h, Trace.println, Trace.get]

theorem secondaryLookup_decoded (w : World) (t : Trace) (body : String) (m : IpMyP)
    (h : w.httpGet "https://api.ipmyp.ir/" = .ok ⟨.ok body⟩)
    (hd : w.unmarshalIpMyP body {} = (m, none)) :
    secondaryLookup w t = (m, ⟨t.out, t.gets ++ ["https://api.ipmyp.ir/"]⟩) := by
  simp [secondaryLookup, h, hd, Trace.get]

theorem secondaryLookup_plain (w : World) (t : Trace) (body e : String) (m : IpMyP)
    (h : w.httpGet "https://api.ipmyp.ir/" = .ok ⟨.ok body⟩)
    (hd : w.unmarshalIpMyP body {} = (m, some e)) (hne : TrimSpace body ≠ "") :
    secondaryLookup w t =
      ({ m with Query := TrimSpace body }, ⟨t.out, t.gets ++ ["https://api.ipmyp.ir/"]⟩) := by
  simp [secondaryLookup, h, hd, hne, Trace.get]

theorem secondaryLookup_blank (w : World) (t : Trace) (body e : String) (m : IpMyP)
    (h : w.httpGet "https://api.ipmyp.ir/" = .ok ⟨.ok body⟩)
    (hd : w.unmarshalIpMyP body {} = (m, some e)) (hb : TrimSpace body = "") :
    secondaryLookup w t =
      (m, ⟨t.out ++ ["ipmyp: empty response"], t.gets ++ ["https://api.ipmyp.ir/"]⟩) := by
  simp [secondaryLookup, h, hd, hb, Trace.println, Trace.get]

theorem secondaryLookup_trace (w : World) (t : Trace) :
    ∃ msgs : List String, msgs.length ≤ 1 ∧
      (secondaryLookup w t).2 = ⟨t.out ++ msgs, t.gets ++ ["https://api.ipmyp.ir/"]⟩ := by
  cases hg : w.httpGet "https://api.ipmyp.ir/" with
  | error e =>
    exact ⟨["ipmyp lookup failed: " ++ e], by simp, by rw [secondaryLookup_getErr w t e hg]⟩
  | ok r =>
    obtain ⟨ra⟩ := r
    cases ra with
    | error e =>
      exact ⟨["ipmyp read failed: " ++ e], by simp, by rw [secondaryLookup_readErr w t e hg]⟩
    | ok b =>
      rcases hu : w.unmarshalIpMyP b {} with ⟨m, err⟩
      cases err with
      | none => exact ⟨[], by simp, by rw [secondaryLookup_decoded w t b m hg hu]; simp⟩
      | some e =>
        by_cases hb : TrimSpace b = ""
        · exact ⟨["ipmyp: empty response"], by simp,
            by rw [secondaryLookup_blank w t b e m hg hu hb]⟩
        · exact ⟨[], by simp, by rw [secondaryLookup_plain w t b e m hg hu hb]; simp⟩

theorem enrichLookup_cases (w : World) (m : IpMyP) (t : Trace) :
    ((if m.Query = "" then m.Ip else m.Query) = "" ∧ enrichLookup w m t = (none, t)) ∨
    ((if m.Query = "" then m.Ip else m.Query) ≠ "" ∧
      ∃ e, (fetchIPAPI w (if m.Query = "" then m.Ip else m.Query) t).1 = .error e ∧
        enrichLookup w m t =
          (none, ⟨t.out ++ ["ip-api lookup for ipmyp failed: " ++ e],
            t.gets ++ ["http://ip-api.com/json/" ++ (if m.Query = "" then m.Ip else m.Query)]⟩)) ∨
    ((if m.Query = "" then m.Ip else m.Query) ≠ "" ∧
      ∃ info, (fetchIPAPI w (if m.Query = "" then m.Ip else m.Query) t).1 = .ok info ∧
        enrichLookup w m t =
          (some info, ⟨t.out,
            t.gets ++ ["http://ip-api.com/json/" ++ (if m.Query = "" then m.Ip else m.Query)]⟩)) := by
  by_cases h : (if m.Query = "" then m.Ip else m.Query) = ""
  · exact Or.inl ⟨h, enrichLookup_skip w m t h⟩
  · cases hr : (fetchIPAPI w (if m.Query = "" then m.Ip else m.Query) t).1 with
    | error e => exact Or.inr (Or.inl ⟨h, e, rfl, enrichLookup_error w m t e h hr⟩)
    | ok info => exact Or.inr (Or.inr ⟨h, info, rfl, enrichLookup_ok w m t info h hr⟩)

theorem fetchJSON_error_iff (w : World) (url : String) (target : IpAPI) (t : Trace) :
    (fetchJSON w url target t).1.2 ≠ none ↔
      ((∃ e, w.httpGet url = .error e) ∨ (∃ e, w.httpGet url = .ok ⟨.error e⟩) ∨
       (∃ b, w.httpGet url = .ok ⟨.ok b⟩ ∧ (w.unmarshalIpAPI b target).2 ≠ none)) := by
  cases hg : w.httpGet url with
  | error e => simp [fetchJSON_getErr w url e target t hg]
  | ok r =>
    obtain ⟨ra⟩ := r
    cases ra with
    | error e => simp [fetchJSON_readErr w url e target t hg]
    | ok b => simp [fetchJSON_body w url b target t hg]

theorem enrichLookup_gets (w : World) (r : IpMyP) (t : Trace) :
    (enrichLookup w r t).2.gets = t.gets ++
      (if r.Query ≠ "" then ["http://ip-api.com/json/" ++ r.Query]
       else if r.Ip ≠ "" then ["http://ip-api.com/json/" ++ r.Ip]
       else []) := by
  have hurl : (if r.Query ≠ "" then ["http://ip-api.com/json/" ++ r.Query]
      else if r.Ip ≠ "" then ["http://ip-api.com/json/" ++ r.Ip] else []) =
      (if (if r.Query = "" then r.Ip else r.Query) = "" then []
       else ["http://ip-api.com/json/" ++ (if r.Query = "" then r.Ip else r.Query)]) := by
    by_cases hq : r.Query = ""
    · by_cases hi : r.Ip = "" <;> simp [hq, hi]
    · simp [hq]
  rw [hurl]
  rcases enrichLookup_cases w r t with ⟨h0, h⟩ | ⟨h0, e, -, h⟩ | ⟨h0, info, -, h⟩ <;>
    rw [h] <;> simp [h0]

theorem main_gets (w : World) (p : IpAPI)
    (hp : (fetchJSON w "http://ip-api.com/json/" {} {}).1 = (p, none)) :
    (main w).gets = ["http://ip-api.com/json/", "https://api.ipmyp.ir/"] ++
      (if (secondaryLookup w ⟨[], ["http://ip-api.com/json/"]⟩).1.Query ≠ "" then
        ["http://ip-api.com/json/" ++ (secondaryLookup w ⟨[], ["http://ip-api.com/json/"]⟩).1.Query]
       else if (secondaryLookup w ⟨[], ["http://ip-api.com/json/"]⟩).1.Ip ≠ "" then
        ["http://ip-api.com/json/" ++ (secondaryLookup w ⟨[], ["http://ip-api.com/json/"]⟩).1.Ip]
       else []) := by
  obtain ⟨m1, -, hsec⟩ := secondaryLookup_trace w ⟨[], ["http://ip-api.com/json/"]⟩
  rw [main_continue w p hp, printReport_gets, enrichLookup_gets, hsec]
  rfl

theorem main_out (w : World) (p : IpAPI)
    (hp : (fetchJSON w "http://ip-api.com/json/" {} {}).1 = (p, none)) :
    (main w).out =
      (enrichLookup w (secondaryLookup w ⟨[], ["http://ip-api.com/json/"]⟩).1
          (secondaryLookup w ⟨[], ["http://ip-api.com/json/"]⟩).2).2.out ++
      ["================ PUBLIC IP INFO ================",
        "IP (ip-api)   : " ++ p.Query, "ISP           : " ++ p.ISP,
        "Country       : " ++ p.Country] ++
      ((if (if (secondaryLookup w ⟨[], ["http://ip-api.com/json/"]⟩).1.Query = "" then
              (secondaryLookup w ⟨[], ["http://ip-api.com/json/"]⟩).1.Ip
            else (secondaryLookup w ⟨[], ["http://ip-api.com/json/"]⟩).1.Query) = "" then []
        else ["IP (ipmyp)    : " ++
          (if (secondaryLookup w ⟨[], ["http://ip-api.com/json/"]⟩).1.Query = "" then
              (secondaryLookup w ⟨[], ["http://ip-api.com/json/"]⟩).1.Ip
            else (secondaryLookup w ⟨[], ["http://ip-api.com/json/"]⟩).1.Query)]) ++
       (match (enrichLookup w (secondaryLookup w ⟨[], ["http://ip-api.com/json/"]⟩).1
          (secondaryLookup w ⟨[], ["http://ip-api.com/json/"]⟩).2).1 with
        | some i => ["--------------- ipmyp enriched ----------------",
            "IP            : " ++ i.Query, "ISP           : " ++ i.ISP,
            "Country       : " ++ i.Country]
        | none => [])) ++
      [closingSeparator] := by
  rw [main_continue w p hp, printReport_out]
  simp only [List.append_assoc]

/-! ## The claims -/

/-- C1. End-to-end scenario: when the primary lookup decodes to
8.8.8.8 / Google / USA / success, the secondary body is the plain text
" 9.9.9.9 " and does not decode as JSON, and the enrichment lookup for
"9.9.9.9" decodes to 9.9.9.9 / Quad9 / USA / success, `main` prints exactly the
ten report lines, in order, and nothing else (and makes exactly the three
requests).  The tenth line, the closing separator, is the text of 48 equals
signs, written here as its two halves of 24. -/
theorem scenario_prints_ten_lines (w : World) (b1 b3 e : String) (m : IpMyP)
    (hp : w.httpGet "http://ip-api.com/json/" = .ok ⟨.ok b1⟩)
    (hpd : w.unmarshalIpAPI b1 {} =
      ({ Query := "8.8.8.8", ISP := "Google", Country := "USA", Status := "success" }, none))
    (hs : w.httpGet "https://api.ipmyp.ir/" = .ok ⟨.ok " 9.9.9.9 "⟩)
    (hsd : w.unmarshalIpMyP " 9.9.9.9 " {} = (m, some e))
    (he : w.httpGet "http://ip-api.com/json/9.9.9.9" = .ok ⟨.ok b3⟩)
    (hed : w.unmarshalIpAPI b3 {} =
      ({ Query := "9.9.9.9", ISP := "Quad9", Country := "USA", Status := "success" }, none)) :
    (main w).out =
      ["================ PUBLIC IP INFO ================",
       "IP (ip-api)   : 8.8.8.8",
       "ISP           : Google",
       "Country       : USA",
       "IP (ipmyp)    : 9.9.9.9",
       "--------------- ipmyp enriched ----------------",
       "IP            : 9.9.9.9",
       "ISP           : Quad9",
       "Country       : USA",
       "========================" ++
         "========================"] ∧
    (main w).gets =
      ["http://ip-api.com/json/", "https://api.ipmyp.ir/", "http://ip-api.com/json/9.9.9.9"] := by
  have hsep : "========================" ++ "========================" = closingSeparator := by
    decide
  rw [hsep]
  have htrim : TrimSpace " 9.9.9.9 " = "9.9.9.9" := by decide
  have h1 := fetchJSON_body w "http://ip-api.com/json/" b1 {} {} hp
  rw [hpd] at h1
  have h2 := secondaryLookup_plain w ⟨[], ["http://ip-api.com/json/"]⟩ " 9.9.9.9 " e m hs hsd
    (by rw [htrim]; decide)
  rw [htrim] at h2
  rw [main_continue w _ (by rw [h1]), h2]
  have h3 : (fetchIPAPI w "9.9.9.9"
      ⟨[], ["http://ip-api.com/json/"] ++ ["https://api.ipmyp.ir/"]⟩).1 =
      .ok { Query := "9.9.9.9", ISP := "Quad9", Country := "USA", Status := "success" } := by
    have h4 := fetchJSON_body w "http://ip-api.com/json/9.9.9.9" b3 {}
      ⟨[], ["http://ip-api.com/json/"] ++ ["https://api.ipmyp.ir/"]⟩ he
    rw [hed] at h4
    have h5 : "http://ip-api.com/json/" ++ "9.9.9.9" = "http://ip-api.com/json/9.9.9.9" := by
      decide
    simp only [fetchIPAPI, h5, h4]
    simp
  have h6 := enrichLookup_ok w { m with Query := "9.9.9.9" }
    ⟨[], ["http://ip-api.com/json/"] ++ ["https://api.ipmyp.ir/"]⟩ _ (by simp) (by simpa using h3)
  simp only at h6
  rw [h6, printReport_out, printReport_gets]
  simp

/-- C1, at the bodies the specification gives. -/
theorem scenario_prints_ten_lines_witness :
    (main scenarioWorld).out =
      ["================ PUBLIC IP INFO ================",
       "IP (ip-api)   : 8.8.8.8",
       "ISP           : Google",
       "Country       : USA",
       "IP (ipmyp)    : 9.9.9.9",
       "--------------- ipmyp enriched ----------------",
       "IP            : 9.9.9.9",
       "ISP           : Quad9",
       "Country       : USA",
       "========================" ++
         "========================"] ∧
    (main scenarioWorld).gets =
      ["http://ip-api.com/json/", "https://api.ipmyp.ir/", "http://ip-api.com/json/9.9.9.9"] :=
  scenario_prints_ten_lines scenarioWorld googleBody quad9Body "invalid character" {}
    rfl rfl rfl rfl rfl rfl

/-- C2. Plain-text fallback of the secondary lookup: when the secondary body was
read, `json.Unmarshal` into `IpMyP` returns an error, and the trimmed body is
not empty, the `Query` field after the lookup is `TrimSpace body`, nothing is
printed, and in particular a body made of white space, a text that neither
starts nor ends with white space, and white space again resolves to that text. -/
theorem plain_text_fallback (w : World) (t : Trace) (body e : String) (m : IpMyP)
    (hget : w.httpGet "https://api.ipmyp.ir/" = .ok ⟨.ok body⟩)
    (hdec : w.unmarshalIpMyP body {} = (m, some e))
    (hne : TrimSpace body ≠ "") :
    (secondaryLookup w t).1.Query = TrimSpace body ∧
    (secondaryLookup w t).2.out = t.out ∧
    (∀ pre core post : List Char,
      (∀ c ∈ pre, isSpace c = true) → (∀ c ∈ post, isSpace c = true) →
      (∀ c, core.head? = some c → isSpace c = false) →
      (∀ c, core.getLast? = some c → isSpace c = false) →
      body = ⟨pre ++ core ++ post⟩ →
      (secondaryLookup w t).1.Query = ⟨core⟩) := by
  rw [secondaryLookup_plain w t body e m hget hdec hne]
  refine ⟨rfl, rfl, ?_⟩
  intro pre core post hpre hpost hhead hlast hb
  subst hb
  exact trimSpace_pad pre core post hpre hpost hhead hlast

/-- C2, at the body " 9.9.9.9 " of the end-to-end scenario. -/
theorem plain_text_fallback_witness :
    scenarioWorld.httpGet "https://api.ipmyp.ir/" = .ok ⟨.ok " 9.9.9.9 "⟩ ∧
    scenarioWorld.unmarshalIpMyP " 9.9.9.9 " {} = ({}, some "invalid character") ∧
    TrimSpace " 9.9.9.9 " ≠ "" ∧
    (secondaryLookup scenarioWorld {}).1.Query = "9.9.9.9" :=
  ⟨rfl, rfl, by decide,
    (plain_text_fallback scenarioWorld {} " 9.9.9.9 " "invalid character" {} rfl rfl
      (by decide)).2.2 [' '] "9.9.9.9".data [' '] (by decide) (by decide)
      (by decide) (by decide) rfl⟩

/-- C3. Effective secondary IP: for every `IpMyP` record the enrichment step
requests `query` when it is non-empty, otherwise `ip` when that is non-empty,
otherwise nothing; in a run whose primary lookup succeeded this is the record
produced by the secondary lookup, and in particular a secondary body decoded to
an `ip` of "1.2.3.4" with no `query` makes the run request
"http://ip-api.com/json/1.2.3.4". -/
theorem effective_secondary_ip (w : World) (p : IpAPI)
    (hp : (fetchJSON w "http://ip-api.com/json/" {} {}).1 = (p, none)) :
    (∀ (r : IpMyP) (t : Trace),
      (enrichLookup w r t).2.gets = t.gets ++
        (if r.Query ≠ "" then ["http://ip-api.com/json/" ++ r.Query]
         else if r.Ip ≠ "" then ["http://ip-api.com/json/" ++ r.Ip]
         else [])) ∧
    (main w).gets = ["http://ip-api.com/json/", "https://api.ipmyp.ir/"] ++
      (if (secondaryLookup w ⟨[], ["http://ip-api.com/json/"]⟩).1.Query ≠ "" then
        ["http://ip-api.com/json/" ++ (secondaryLookup w ⟨[], ["http://ip-api.com/json/"]⟩).1.Query]
       else if (secondaryLookup w ⟨[], ["http://ip-api.com/json/"]⟩).1.Ip ≠ "" then
        ["http://ip-api.com/json/" ++ (secondaryLookup w ⟨[], ["http://ip-api.com/json/"]⟩).1.Ip]
       else []) ∧
    (∀ body : String, w.httpGet "https://api.ipmyp.ir/" = .ok ⟨.ok body⟩ →
      w.unmarshalIpMyP body {} = ({ Query := "", Ip := "1.2.3.4" }, none) →
      (main w).gets = ["http://ip-api.com/json/", "https://api.ipmyp.ir/",
        "http://ip-api.com/json/1.2.3.4"]) := by
  have hmain := main_gets w p hp
  refine ⟨enrichLookup_gets w, hmain, ?_⟩
  intro body hb hd
  rw [hmain, secondaryLookup_decoded w _ body _ hb hd]
  simp

/-- C3, at the secondary body `{"ip": "1.2.3.4"}`. -/
theorem effective_secondary_ip_witness :
    (fetchJSON altFieldWorld "http://ip-api.com/json/" {} {}).1 =
      ({ Query := "8.8.8.8", ISP := "Google", Country := "USA", Status := "success" }, none) ∧
    altFieldWorld.httpGet "https://api.ipmyp.ir/" = .ok ⟨.ok "\x7b\"ip\": \"1.2.3.4\"\x7d"⟩ ∧
    (main altFieldWorld).gets = ["http://ip-api.com/json/", "https://api.ipmyp.ir/",
      "http://ip-api.com/json/1.2.3.4"] :=
  ⟨rfl, rfl, (effective_secondary_ip altFieldWorld _ rfl).2.2 _ rfl rfl⟩

/-- C4. Fatal primary failure: when the primary request cannot be sent, or its
body cannot be read, the whole output is the single line "ip-api unreachable":
no report line is printed, and the only request of the run is the primary one
(neither the secondary nor the enrichment lookup is made). -/
theorem primary_network_failure_fatal (w : World)
    (h : (∃ e, w.httpGet "http://ip-api.com/json/" = .error e) ∨
         (∃ e, w.httpGet "http://ip-api.com/json/" = .ok ⟨.error e⟩)) :
    (main w).out = ["ip-api unreachable"] ∧
    (main w).gets = ["http://ip-api.com/json/"] := by
  rcases h with ⟨e, h⟩ | ⟨e, h⟩
  · rw [main_abort w {} e (by rw [fetchJSON_getErr w _ e _ _ h])]
    exact ⟨rfl, rfl⟩
  · rw [main_abort w {} e (by rw [fetchJSON_readErr w _ e _ _ h])]
    exact ⟨rfl, rfl⟩

/-- C4, in a world where no host can be reached. -/
theorem primary_network_failure_fatal_witness :
    offlineWorld.httpGet "http://ip-api.com/json/" = .error "no such host" ∧
    (main offlineWorld).out = ["ip-api unreachable"] ∧
    (main offlineWorld).gets = ["http://ip-api.com/json/"] :=
  ⟨rfl, primary_network_failure_fatal offlineWorld (Or.inl ⟨"no such host", rfl⟩)⟩

/-- C5, as stated, fails: in a world where the primary request is sent and its
body is read, but the body is not JSON, no network-level failure occurred and
yet the run aborts: the only line is "ip-api unreachable", the secondary lookup
is not made and no report is printed. -/
theorem decode_error_aborts_counterexample :
    garbledPrimaryWorld.httpGet "http://ip-api.com/json/" = .ok ⟨.ok "<html>"⟩ ∧
    ¬ ((∃ e, garbledPrimaryWorld.httpGet "http://ip-api.com/json/" = .error e) ∨
       (∃ e, garbledPrimaryWorld.httpGet "http://ip-api.com/json/" = .ok ⟨.error e⟩)) ∧
    (main garbledPrimaryWorld).out = ["ip-api unreachable"] ∧
    (main garbledPrimaryWorld).gets = ["http://ip-api.com/json/"] := by
  have h : garbledPrimaryWorld.httpGet "http://ip-api.com/json/" = .ok ⟨.ok "<html>"⟩ := rfl
  refine ⟨h, ?_, by decide, by decide⟩
  rintro (⟨e, he⟩ | ⟨e, he⟩)
  · rw [h] at he
    cases he
  · rw [h] at he
    cases he

/-- C5, amended. The run aborts (its whole output is "ip-api unreachable" and only
the primary request is made) if and only if `fetchJSON` on the primary URL
returns an error, which happens exactly when the request could not be sent, the
body could not be read, or the body did not decode as JSON; in every other run
the secondary lookup is made next and the report is printed, from the header
and the three primary lines to the closing separator. -/
theorem abort_iff_primary_fetch_error (w : World) :
    ((fetchJSON w "http://ip-api.com/json/" {} {}).1.2 ≠ none ↔
      ((∃ e, w.httpGet "http://ip-api.com/json/" = .error e) ∨
       (∃ e, w.httpGet "http://ip-api.com/json/" = .ok ⟨.error e⟩) ∨
       (∃ b, w.httpGet "http://ip-api.com/json/" = .ok ⟨.ok b⟩ ∧
          (w.unmarshalIpAPI b {}).2 ≠ none))) ∧
    (((main w).out = ["ip-api unreachable"] ∧ (main w).gets = ["http://ip-api.com/json/"]) ↔
      (fetchJSON w "http://ip-api.com/json/" {} {}).1.2 ≠ none) ∧
    ((fetchJSON w "http://ip-api.com/json/" {} {}).1.2 = none →
      ∃ (msgs rest more : List String),
        (main w).gets = "http://ip-api.com/json/" :: "https://api.ipmyp.ir/" :: more ∧
        (main w).out = msgs ++
          ["================ PUBLIC IP INFO ================",
           "IP (ip-api)   : " ++ (fetchJSON w "http://ip-api.com/json/" {} {}).1.1.Query,
           "ISP           : " ++ (fetchJSON w "http://ip-api.com/json/" {} {}).1.1.ISP,
           "Country       : " ++ (fetchJSON w "http://ip-api.com/json/" {} {}).1.1.Country]
          ++ rest ++ [closingSeparator]) := by
  have cont : (fetchJSON w "http://ip-api.com/json/" {} {}).1.2 = none →
      ∃ (msgs rest more : List String),
        (main w).gets = "http://ip-api.com/json/" :: "https://api.ipmyp.ir/" :: more ∧
        (main w).out = msgs ++
          ["================ PUBLIC IP INFO ================",
           "IP (ip-api)   : " ++ (fetchJSON w "http://ip-api.com/json/" {} {}).1.1.Query,
           "ISP           : " ++ (fetchJSON w "http://ip-api.com/json/" {} {}).1.1.ISP,
           "Country       : " ++ (fetchJSON w "http://ip-api.com/json/" {} {}).1.1.Country]
          ++ rest ++ [closingSeparator] := by
    intro hn
    have hp : (fetchJSON w "http://ip-api.com/json/" {} {}).1 =
        ((fetchJSON w "http://ip-api.com/json/" {} {}).1.1, none) := by
      rw [← hn]
    exact ⟨_, _, _, main_gets w _ hp, main_out w _ hp⟩
  refine ⟨fetchJSON_error_iff w _ _ _, ⟨?_, ?_⟩, cont⟩
  · rintro ⟨hout, -⟩
    intro hn
    obtain ⟨msgs, rest, more, -, ho⟩ := cont hn
    rw [ho] at hout
    have := congrArg List.length hout
    simp at this
    omega
  · intro hne
    rcases hf : (fetchJSON w "http://ip-api.com/json/" {} {}).1 with ⟨q, err⟩
    rw [hf] at hne
    cases err with
    | none => exact absurd rfl hne
    | some e =>
      rw [main_abort w q e hf]
      exact ⟨rfl, rfl⟩

/-- C6. Strict enrichment with local recovery. `fetchIPAPI` returns an error when
its fetch or decode fails and when the decoded status is not "success", and
returns the decoded record unchanged when the status is "success".  In a run
whose primary lookup succeeded and whose secondary lookup resolved an IP, an
enrichment error prints a line starting "ip-api lookup for ipmyp failed:", the
enriched block is omitted, the raw line "IP (ipmyp)    : ip" is still printed
and the report ends with the closing separator; an enrichment success prints
the enriched block from the returned record. -/
theorem strict_enrichment (w : World) (p : IpAPI) (m : IpMyP) (t2 : Trace) (ip : String)
    (hp : (fetchJSON w "http://ip-api.com/json/" {} {}).1 = (p, none))
    (hs : secondaryLookup w ⟨[], ["http://ip-api.com/json/"]⟩ = (m, t2))
    (hip : ip = if m.Query = "" then m.Ip else m.Query)
    (hne : ip ≠ "") :
    (∀ q e, (fetchJSON w ("http://ip-api.com/json/" ++ ip) {} t2).1 = (q, some e) →
      (fetchIPAPI w ip t2).1 = .error e) ∧
    (∀ q, (fetchJSON w ("http://ip-api.com/json/" ++ ip) {} t2).1 = (q, none) →
      q.Status ≠ "success" → (fetchIPAPI w ip t2).1 = .error "ip-api lookup failed") ∧
    (∀ q, (fetchJSON w ("http://ip-api.com/json/" ++ ip) {} t2).1 = (q, none) →
      q.Status = "success" → (fetchIPAPI w ip t2).1 = .ok q) ∧
    (∀ e, (fetchIPAPI w ip t2).1 = .error e →
      (main w).out = t2.out ++
        ["ip-api lookup for ipmyp failed: " ++ e,
         "================ PUBLIC IP INFO ================",
         "IP (ip-api)   : " ++ p.Query,
         "ISP           : " ++ p.ISP,
         "Country       : " ++ p.Country,
         "IP (ipmyp)    : " ++ ip,
         closingSeparator]) ∧
    (∀ info, (fetchIPAPI w ip t2).1 = .ok info →
      (main w).out = t2.out ++
        ["================ PUBLIC IP INFO ================",
         "IP (ip-api)   : " ++ p.Query,
         "ISP           : " ++ p.ISP,
         "Country       : " ++ p.Country,
         "IP (ipmyp)    : " ++ ip,
         "--------------- ipmyp enriched ----------------",
         "IP            : " ++ info.Query,
         "ISP           : " ++ info.ISP,
         "Country       : " ++ info.Country,
         closingSeparator]) := by
  have hstrict : ∀ (q : IpAPI) (err : Option String),
      (fetchJSON w ("http://ip-api.com/json/" ++ ip) {} t2).1 = (q, err) →
      (fetchIPAPI w ip t2).1 =
        match err with
        | some e => .error e
        | none => if q.Status ≠ "success" then .error "ip-api lookup failed" else .ok q := by
    intro q err hq
    rcases hf : fetchJSON w ("http://ip-api.com/json/" ++ ip) {} t2 with ⟨⟨q2, err2⟩, t3⟩
    rw [hf] at hq
    simp only [Prod.mk.injEq] at hq
    obtain ⟨rfl, rfl⟩ := hq
    simp only [fetchIPAPI, hf]
    cases err2 with
    | some e => rfl
    | none => by_cases hst : q2.Status = "success" <;> simp [hst]
  have hm := main_out w p hp
  rw [hs] at hm
  simp only at hm
  rw [← hip] at hm
  refine ⟨?_, ?_, ?_, ?_, ?_⟩
  · intro q e hq
    rw [hstrict q _ hq]
  · intro q hq hst
    rw [hstrict q _ hq]
    simp [hst]
  · intro q hq hst
    rw [hstrict q _ hq]
    simp [hst]
  · intro e he
    rw [hm, enrichLookup_error w m t2 e (by rw [← hip]; exact hne) (by rw [← hip]; exact he)]
    simp [hne]
  · intro info hi
    rw [hm, enrichLookup_ok w m t2 info (by rw [← hip]; exact hne) (by rw [← hip]; exact hi)]
    simp [hne]

/-- C6, once where the enrichment lookup decodes a "fail" status and once where
it decodes a "success" status. -/
theorem strict_enrichment_witness :
    ((fetchIPAPI altFieldWorld "1.2.3.4"
        ⟨[], ["http://ip-api.com/json/", "https://api.ipmyp.ir/"]⟩).1 =
        .error "ip-api lookup failed" ∧
     (main altFieldWorld).out =
      ["ip-api lookup for ipmyp failed: ip-api lookup failed",
       "================ PUBLIC IP INFO ================",
       "IP (ip-api)   : 8.8.8.8",
       "ISP           : Google",
       "Country       : USA",
       "IP (ipmyp)    : 1.2.3.4",
       closingSeparator]) ∧
    ((fetchIPAPI scenarioWorld "9.9.9.9"
        ⟨[], ["http://ip-api.com/json/", "https://api.ipmyp.ir/"]⟩).1 =
        .ok { Query := "9.9.9.9", ISP := "Quad9", Country := "USA", Status := "success" } ∧
     (main scenarioWorld).out.length = 10) :=
  ⟨⟨((strict_enrichment altFieldWorld _ _ _ "1.2.3.4" rfl rfl rfl (by decide)).2.1
        { Query := "1.2.3.4", Status := "fail" } rfl (by decide)),
    ((strict_enrichment altFieldWorld _ _ _ "1.2.3.4" rfl rfl rfl (by decide)).2.2.2.1
        "ip-api lookup failed" rfl)⟩,
   ⟨((strict_enrichment scenarioWorld _ _ _ "9.9.9.9" rfl rfl rfl (by decide)).2.2.1
        { Query := "9.9.9.9", ISP := "Quad9", Country := "USA", Status := "success" } rfl rfl),
    by decide⟩⟩

/-- C7. Empty secondary body: in a run whose primary lookup succeeded and whose
secondary body is empty or white space only (a body that `json.Unmarshal`
rejects untouched), "ipmyp: empty response" is printed, both `IpMyP` fields
stay empty, no enrichment request is made, and the output is that message
followed by exactly the header, the three primary lines and the closing
separator: no "IP (ipmyp)" line and no enriched block. -/
theorem empty_secondary_body (w : World) (p : IpAPI) (body : String)
    (hjson : RejectsBlank w)
    (hp : (fetchJSON w "http://ip-api.com/json/" {} {}).1 = (p, none))
    (hget : w.httpGet "https://api.ipmyp.ir/" = .ok ⟨.ok body⟩)
    (hblank : TrimSpace body = "") :
    (secondaryLookup w ⟨[], ["http://ip-api.com/json/"]⟩).1 = { Query := "", Ip := "" } ∧
    (main w).gets = ["http://ip-api.com/json/", "https://api.ipmyp.ir/"] ∧
    (main w).out =
      ["ipmyp: empty response",
       "================ PUBLIC IP INFO ================",
       "IP (ip-api)   : " ++ p.Query,
       "ISP           : " ++ p.ISP,
       "Country       : " ++ p.Country,
       closingSeparator] := by
  obtain ⟨e, hd⟩ := hjson body {} hblank
  have hsec := secondaryLookup_blank w ⟨[], ["http://ip-api.com/json/"]⟩ body e {} hget hd hblank
  refine ⟨by rw [hsec], ?_, ?_⟩
  · rw [main_gets w p hp, hsec]
    simp
  · rw [main_out w p hp, hsec, enrichLookup_skip w _ _ (by simp)]
    simp

/-- C7, at the secondary body " \n". -/
theorem empty_secondary_body_witness :
    TrimSpace " \n" = "" ∧
    (main blankSecondaryWorld).gets = ["http://ip-api.com/json/", "https://api.ipmyp.ir/"] ∧
    (main blankSecondaryWorld).out =
      ["ipmyp: empty response",
       "================ PUBLIC IP INFO ================",
       "IP (ip-api)   : 8.8.8.8",
       "ISP           : Google",
       "Country       : USA",
       closingSeparator] :=
  ⟨by decide,
   (empty_secondary_body blankSecondaryWorld
      { Query := "8.8.8.8", ISP := "Google", Country := "USA", Status := "success" } " \n"
      (by
        intro body target hb
        refine ⟨"invalid character", ?_⟩
        show demoUnmarshalIpMyP body target = _
        unfold demoUnmarshalIpMyP
        split
        · next h =>
          subst h
          exact absurd hb (by decide)
        · rfl)
      rfl rfl (by decide)).2⟩

/-- C8. Primary display ignores status: whatever record the primary lookup
decodes, the run does not abort and prints, right after the header, the three
primary lines with the decoded `Query`, `ISP` and `Country` verbatim, between
the messages of the later lookups and the rest of the report; and the run is
the same whatever value the record's `Status` field is replaced with. -/
theorem primary_display_ignores_status (w : World) (p : IpAPI)
    (hp : (fetchJSON w "http://ip-api.com/json/" {} {}).1 = (p, none)) :
    (∃ msgs rest : List String, msgs.length ≤ 2 ∧
      (main w).out = msgs ++
        ["================ PUBLIC IP INFO ================",
         "IP (ip-api)   : " ++ p.Query,
         "ISP           : " ++ p.ISP,
         "Country       : " ++ p.Country] ++ rest ++
        [closingSeparator]) ∧
    (∀ s : String,
      main w =
        printReport { p with Status := s }
          (secondaryLookup w ⟨[], ["http://ip-api.com/json/"]⟩).1
          (enrichLookup w (secondaryLookup w ⟨[], ["http://ip-api.com/json/"]⟩).1
            (secondaryLookup w ⟨[], ["http://ip-api.com/json/"]⟩).2).1
          (enrichLookup w (secondaryLookup w ⟨[], ["http://ip-api.com/json/"]⟩).1
            (secondaryLookup w ⟨[], ["http://ip-api.com/json/"]⟩).2).2) := by
  refine ⟨⟨_, _, ?_, main_out w p hp⟩, ?_⟩
  · obtain ⟨m1, hlen, hsec⟩ := secondaryLookup_trace w ⟨[], ["http://ip-api.com/json/"]⟩
    rcases enrichLookup_cases w (secondaryLookup w ⟨[], ["http://ip-api.com/json/"]⟩).1
        (secondaryLookup w ⟨[], ["http://ip-api.com/json/"]⟩).2 with
      ⟨-, h⟩ | ⟨-, e, -, h⟩ | ⟨-, info, -, h⟩ <;>
    · rw [h, hsec]
      simp
      omega
  · intro s
    rw [main_continue w p hp]
    rfl

/-- C8, at a primary record whose status is "fail" and whose ISP and country are
empty. -/
theorem primary_display_ignores_status_witness :
    (fetchJSON failStatusWorld "http://ip-api.com/json/" {} {}).1 =
      ({ Query := "1.2.3.4", ISP := "", Country := "", Status := "fail" }, none) ∧
    (∃ msgs rest : List String, msgs.length ≤ 2 ∧
      (main failStatusWorld).out = msgs ++
        ["================ PUBLIC IP INFO ================",
         "IP (ip-api)   : 1.2.3.4",
         "ISP           : ",
         "Country       : "] ++ rest ++
        [closingSeparator]) ∧
    main failStatusWorld =
      printReport { Query := "1.2.3.4", ISP := "", Country := "", Status := "success" }
        { Query := "9.9.9.9", Ip := "" }
        (some { Query := "9.9.9.9", ISP := "Quad9", Country := "USA", Status := "success" })
        ⟨[], ["http://ip-api.com/json/", "https://api.ipmyp.ir/",
          "http://ip-api.com/json/9.9.9.9"]⟩ :=
  ⟨rfl,
   (primary_display_ignores_status failStatusWorld
      { Query := "1.2.3.4", ISP := "", Country := "", Status := "fail" } rfl).1,
   (primary_display_ignores_status failStatusWorld
      { Query := "1.2.3.4", ISP := "", Country := "", Status := "fail" } rfl).2 "success"⟩

/-- C9. Secondary lookup failures are recovered locally: in a run whose primary
lookup succeeded, when the secondary request fails, or its body cannot be read,
exactly one message is printed before the report ("ipmyp lookup failed: err",
respectively "ipmyp read failed: err"), both secondary fields stay empty, no
enrichment request is made, and the report is the header, the three primary
lines and the closing separator, with no secondary or enriched line. -/
theorem secondary_failure_recovered (w : World) (p : IpAPI)
    (hp : (fetchJSON w "http://ip-api.com/json/" {} {}).1 = (p, none)) :
    (∀ e, w.httpGet "https://api.ipmyp.ir/" = .error e →
      (secondaryLookup w ⟨[], ["http://ip-api.com/json/"]⟩).1 = { Query := "", Ip := "" } ∧
      (main w).gets = ["http://ip-api.com/json/", "https://api.ipmyp.ir/"] ∧
      (main w).out =
        ["ipmyp lookup failed: " ++ e,
         "================ PUBLIC IP INFO ================",
         "IP (ip-api)   : " ++ p.Query,
         "ISP           : " ++ p.ISP,
         "Country       : " ++ p.Country,
         closingSeparator]) ∧
    (∀ e, w.httpGet "https://api.ipmyp.ir/" = .ok ⟨.error e⟩ →
      (secondaryLookup w ⟨[], ["http://ip-api.com/json/"]⟩).1 = { Query := "", Ip := "" } ∧
      (main w).gets = ["http://ip-api.com/json/", "https://api.ipmyp.ir/"] ∧
      (main w).out =
        ["ipmyp read failed: " ++ e,
         "================ PUBLIC IP INFO ================",
         "IP (ip-api)   : " ++ p.Query,
         "ISP           : " ++ p.ISP,
         "Country       : " ++ p.Country,
         closingSeparator]) := by
  constructor
  · intro e he
    have hsec := secondaryLookup_getErr w ⟨[], ["http://ip-api.com/json/"]⟩ e he
    refine ⟨by rw [hsec], ?_, ?_⟩
    · rw [main_gets w p hp, hsec]
      simp
    · rw [main_out w p hp, hsec, enrichLookup_skip w _ _ (by simp)]
      simp
  · intro e he
    have hsec := secondaryLookup_readErr w ⟨[], ["http://ip-api.com/json/"]⟩ e he
    refine ⟨by rw [hsec], ?_, ?_⟩
    · rw [main_gets w p hp, hsec]
      simp
    · rw [main_out w p hp, hsec, enrichLookup_skip w _ _ (by simp)]
      simp

/-- C9, once with the secondary host unreachable and once with a failing body
read. -/
theorem secondary_failure_recovered_witness :
    (main secondaryDownWorld).out =
      ["ipmyp lookup failed: no such host",
       "================ PUBLIC IP INFO ================",
       "IP (ip-api)   : 8.8.8.8",
       "ISP           : Google",
       "Country       : USA",
       closingSeparator] ∧
    (main secondaryReadFailWorld).out =
      ["ipmyp read failed: unexpected EOF",
       "================ PUBLIC IP INFO ================",
       "IP (ip-api)   : 8.8.8.8",
       "ISP           : Google",
       "Country       : USA",
       closingSeparator] :=
  ⟨((secondary_failure_recovered secondaryDownWorld
      { Query := "8.8.8.8", ISP := "Google", Country := "USA", Status := "success" } rfl).1
        "no such host" rfl).2.2,
   ((secondary_failure_recovered secondaryReadFailWorld
      { Query := "8.8.8.8", ISP := "Google", Country := "USA", Status := "success" } rfl).2
        "unexpected EOF" rfl).2.2⟩

/-- C10. Report shape invariant: in every run whose primary lookup succeeded the
output is at most two messages followed by a report of exactly one of three
shapes: five lines (header, three primary lines, separator) with no enrichment
request; six lines, with the raw "IP (ipmyp)" line; or ten lines, with the raw
line followed by the four-line enriched block.  In the last two shapes the IP on
the raw line is non-empty and is exactly the IP of the enrichment request, so
the enriched block never appears without the raw line before it. -/
theorem report_shape (w : World) (p : IpAPI)
    (hp : (fetchJSON w "http://ip-api.com/json/" {} {}).1 = (p, none)) :
    ∃ msgs : List String, msgs.length ≤ 2 ∧
      (((main w).gets = ["http://ip-api.com/json/", "https://api.ipmyp.ir/"] ∧
        (main w).out = msgs ++
          ["================ PUBLIC IP INFO ================",
           "IP (ip-api)   : " ++ p.Query,
           "ISP           : " ++ p.ISP,
           "Country       : " ++ p.Country,
           closingSeparator]) ∨
       (∃ ip : String, ip ≠ "" ∧
        (main w).gets = ["http://ip-api.com/json/", "https://api.ipmyp.ir/",
          "http://ip-api.com/json/" ++ ip] ∧
        (main w).out = msgs ++
          ["================ PUBLIC IP INFO ================",
           "IP (ip-api)   : " ++ p.Query,
           "ISP           : " ++ p.ISP,
           "Country       : " ++ p.Country,
           "IP (ipmyp)    : " ++ ip,
           closingSeparator]) ∨
       (∃ (ip : String) (info : IpAPI), ip ≠ "" ∧
        (main w).gets = ["http://ip-api.com/json/", "https://api.ipmyp.ir/",
          "http://ip-api.com/json/" ++ ip] ∧
        (main w).out = msgs ++
          ["================ PUBLIC IP INFO ================",
           "IP (ip-api)   : " ++ p.Query,
           "ISP           : " ++ p.ISP,
           "Country       : " ++ p.Country,
           "IP (ipmyp)    : " ++ ip,
           "--------------- ipmyp enriched ----------------",
           "IP            : " ++ info.Query,
           "ISP           : " ++ info.ISP,
           "Country       : " ++ info.Country,
           closingSeparator])) := by
  obtain ⟨m1, hlen, hsec⟩ := secondaryLookup_trace w ⟨[], ["http://ip-api.com/json/"]⟩
  have hg : (main w).gets = (enrichLookup w (secondaryLookup w ⟨[], ["http://ip-api.com/json/"]⟩).1
      (secondaryLookup w ⟨[], ["http://ip-api.com/json/"]⟩).2).2.gets := by
    rw [main_continue w p hp, printReport_gets]
  have ho := main_out w p hp
  rcases enrichLookup_cases w (secondaryLookup w ⟨[], ["http://ip-api.com/json/"]⟩).1
      (secondaryLookup w ⟨[], ["http://ip-api.com/json/"]⟩).2 with
    ⟨h0, h⟩ | ⟨h0, e, -, h⟩ | ⟨h0, info, -, h⟩
  · refine ⟨m1, by omega, Or.inl ⟨?_, ?_⟩⟩
    · rw [hg, h, hsec]
      rfl
    · rw [ho, h, hsec]
      simp [h0]
  · refine ⟨m1 ++ ["ip-api lookup for ipmyp failed: " ++ e], by simp; omega,
      Or.inr (Or.inl ⟨_, h0, ?_, ?_⟩)⟩
    · rw [hg, h, hsec]
      rfl
    · rw [ho, h, hsec]
      simp [h0]
  · refine ⟨m1, by omega, Or.inr (Or.inr ⟨_, info, h0, ?_, ?_⟩)⟩
    · rw [hg, h, hsec]
      rfl
    · rw [ho, h, hsec]
      simp [h0]

/-- C10, on the end-to-end scenario: the run has the ten-line shape, with no
message before the report. -/
theorem report_shape_witness :
    (fetchJSON scenarioWorld "http://ip-api.com/json/" {} {}).1 =
      ({ Query := "8.8.8.8", ISP := "Google", Country := "USA", Status := "success" }, none) ∧
    (main scenarioWorld).out.length = 10 ∧
    ∃ msgs : List String, msgs.length ≤ 2 ∧
      (((main scenarioWorld).gets = ["http://ip-api.com/json/", "https://api.ipmyp.ir/"] ∧
        (main scenarioWorld).out = msgs ++
          ["================ PUBLIC IP INFO ================",
           "IP (ip-api)   : 8.8.8.8",
           "ISP           : Google",
           "Country       : USA",
           closingSeparator]) ∨
       (∃ ip : String, ip ≠ "" ∧
        (main scenarioWorld).gets = ["http://ip-api.com/json/", "https://api.ipmyp.ir/",
          "http://ip-api.com/json/" ++ ip] ∧
        (main scenarioWorld).out = msgs ++
          ["================ PUBLIC IP INFO ================",
           "IP (ip-api)   : 8.8.8.8",
           "ISP           : Google",
           "Country       : USA",
           "IP (ipmyp)    : " ++ ip,
           closingSeparator]) ∨
       (∃ (ip : String) (info : IpAPI), ip ≠ "" ∧
        (main scenarioWorld).gets = ["http://ip-api.com/json/", "https://api.ipmyp.ir/",
          "http://ip-api.com/json/" ++ ip] ∧
        (main scenarioWorld).out = msgs ++
          ["================ PUBLIC IP INFO ================",
           "IP (ip-api)   : 8.8.8.8",
           "ISP           : Google",
           "Country       : USA",
           "IP (ipmyp)    : " ++ ip,
           "--------------- ipmyp enriched ----------------",
           "IP            : " ++ info.Query,
           "ISP           : " ++ info.ISP,
           "Country       : " ++ info.Country,
           closingSeparator])) :=
  ⟨rfl, by decide,
   report_shape scenarioWorld
     { Query := "8.8.8.8", ISP := "Google", Country := "USA", Status := "success" } rfl⟩

end MyIP
